import Mathlib

/-!
# Verification of the ChatdollKit server data/contract layer

Shallow embedding of `chatdollkit/models.py`: the multimodal response
composition engine (`AnimatedVoiceRequest` frame builder), the dialog-turn
types (`Response`), the API error mapping (`ApiResponseBase.from_exception`)
and the tokenizer adapter (`WordNode.from_janome`).

Modelling conventions:
* Python `float` parameters (gaps, durations, weights) carry no arithmetic in
  this code — they are stored verbatim — so they are modelled by `Rat`.
* Python `Optional[T]` pydantic fields default to `None`; they are modelled by
  `Option T` with default `none`.
* Python truthiness in `x or default` (used for `Name or ""` and
  `LayerName or self.BaseLayerName`) is modelled by `pyOrStr`: the default is
  taken both when `x` is `None` and when `x` is the empty string.
* The runtime value of `AnimatedVoice.Animations` is an insertion-ordered
  `dict` from layer name to a Python `list` of `Animation` (built by
  `AddAnimation`, which assigns `[]` at a missing key and then appends); it is
  modelled by an insertion-ordered association list with unique keys.
* `datetime` values are modelled as abstract instants (`Nat`); the class-body
  default `CreatedAt = datetime.utcnow()` is evaluated once, at module import,
  so the constructor model takes that import-time instant separately from the
  instant a particular instance is constructed.
-/

namespace Chatdollkit

/-- Python `x or default` on an optional string: the default is used when the
argument is `None` and also when it is the (falsy) empty string. -/
def pyOrStr (x : Option String) (default : String) : String :=
  match x with
  | none => default
  | some s => if s = "" then default else s

/-- `class TTSConfiguration(BaseModel)`: `Name: str = ""`, `Params: dict = {}`.
`Params` is an opaque configuration dictionary, modelled as key/value pairs. -/
structure TTSConfiguration where
  Name : String := ""
  Params : List (String × String) := []
deriving DecidableEq, Repr

/-- `class VoiceSource`: bare class-level integer constants. -/
def VoiceSource.Local : Nat := 0

def VoiceSource.Web : Nat := 1

def VoiceSource.TTS : Nat := 2

/-- `class Voice(BaseModel)`: pydantic `Optional` fields default to `None`;
`Source: int = VoiceSource.Local`; `UseCache: bool = True`. -/
structure Voice where
  Name : String
  PreGap : Rat
  PostGap : Rat
  Text : Option String := none
  Url : Option String := none
  TTSConfig : Option TTSConfiguration := none
  Source : Nat := VoiceSource.Local
  UseCache : Bool := true
deriving DecidableEq, Repr

/-- `class Animation(BaseModel)`. -/
structure Animation where
  Name : String
  LayerName : Option String := none
  Duration : Rat
  FadeLength : Rat
  Weight : Rat
  PreGap : Rat
  Description : Option String := none
deriving DecidableEq, Repr

/-- `class FaceExpression(BaseModel)`. -/
structure FaceExpression where
  Name : String
  Duration : Rat
  Description : Option String := none
deriving DecidableEq, Repr

/-- Lookup in the insertion-ordered layer map (`target_layer in Animations` /
`Animations[target_layer]` read access). -/
def dictLookup : List (String × List Animation) → String → Option (List Animation)
  | [], _ => none
  | (k', v) :: rest, k => if k' = k then some v else dictLookup rest k

/-- The two-step Python idiom
`if k not in d: d[k] = []` followed by `d[k].append(a)` on an
insertion-ordered dict with unique keys: append to the entry of `k` if
present, otherwise add a new entry `(k, [a])` at the end. -/
def dictAppendAt : List (String × List Animation) → String → Animation →
    List (String × List Animation)
  | [], k, a => [(k, [a])]
  | (k', v) :: rest, k, a =>
      if k' = k then (k', v ++ [a]) :: rest else (k', v) :: dictAppendAt rest k a

/-- `class AnimatedVoice(BaseModel)`: one frame. The pydantic annotation of
`Animations` is `Dict[str, Animation]`, but the values actually stored by the
builder (`AddAnimation`) are lists of `Animation` per layer; the model follows
the runtime contents. -/
structure AnimatedVoice where
  Voices : List Voice := []
  Animations : List (String × List Animation) := []
  Faces : List FaceExpression := []
deriving DecidableEq, Repr

/-- The default (all-fields-defaulted) frame, `AnimatedVoice()`. -/
def AnimatedVoice.default : AnimatedVoice := {}

/-- `class AnimatedVoiceRequest(BaseModel)` with its pydantic field defaults. -/
structure AnimatedVoiceRequest where
  AnimatedVoices : List AnimatedVoice := []
  DisableBlink : Bool := true
  StopIdlingOnStart : Bool := true
  StartIdlingOnEnd : Bool := true
  StopLayeredAnimations : Bool := true
  BaseLayerName : String := "Base Layer"
deriving DecidableEq, Repr

/-- The freshly constructed builder, `AnimatedVoiceRequest()`. -/
def AnimatedVoiceRequest.default : AnimatedVoiceRequest := {}

namespace AnimatedVoiceRequest

/-- `CreateNewFrame`: appends an empty `AnimatedVoice`. (The Python method
also returns the new frame count `len(self.AnimatedVoices)`; that return value
is unused by every caller and is not modelled.) -/
def CreateNewFrame (avr : AnimatedVoiceRequest) : AnimatedVoiceRequest :=
  { avr with AnimatedVoices := avr.AnimatedVoices ++ [AnimatedVoice.default] }

/-- In-place mutation of `self.AnimatedVoices[-1]`. Every caller first ensures
the list is non-empty (as in the source, where `[-1]` is only reached after
the new-frame guard), so the empty case never arises at a call site. -/
def modifyLastFrame (avr : AnimatedVoiceRequest) (g : AnimatedVoice → AnimatedVoice) :
    AnimatedVoiceRequest :=
  { avr with AnimatedVoices :=
      avr.AnimatedVoices.dropLast ++ [g ((avr.AnimatedVoices.getLast?).getD AnimatedVoice.default)] }

/-- `AddVoice(self, Name, PreGap=0.0, PostGap=0.0, AsNewFrame=False)`:
appends `Voice(Name=Name, PreGap=PreGap, PostGap=PostGap,
Source=VoiceSource.Local, UseCache=False)` (Text/Url/TTSConfig omitted,
hence `None`). -/
def AddVoice (avr : AnimatedVoiceRequest) (Name : String)
    (PreGap : Rat := 0) (PostGap : Rat := 0) (AsNewFrame : Bool := false) :
    AnimatedVoiceRequest :=
  let avr := if AsNewFrame || avr.AnimatedVoices.isEmpty then avr.CreateNewFrame else avr
  avr.modifyLastFrame fun f =>
    { f with Voices := f.Voices ++
        [{ Name := Name, PreGap := PreGap, PostGap := PostGap,
           Source := VoiceSource.Local, UseCache := false }] }

/-- `AddVoiceWeb(self, Url, PreGap=0.0, PostGap=0.0, Name=None, UseCache=True,
AsNewFrame=False)`: appends `Voice(Name=Name or "", ..., Url=Url,
UseCache=UseCache, Source=VoiceSource.Web)`. -/
def AddVoiceWeb (avr : AnimatedVoiceRequest) (Url : String)
    (PreGap : Rat := 0) (PostGap : Rat := 0) (Name : Option String := none)
    (UseCache : Bool := true) (AsNewFrame : Bool := false) : AnimatedVoiceRequest :=
  let avr := if AsNewFrame || avr.AnimatedVoices.isEmpty then avr.CreateNewFrame else avr
  avr.modifyLastFrame fun f =>
    { f with Voices := f.Voices ++
        [{ Name := pyOrStr Name "", PreGap := PreGap, PostGap := PostGap,
           Url := some Url, UseCache := UseCache, Source := VoiceSource.Web }] }

/-- `AddVoiceTTS(self, Text, PreGap=0.0, PostGap=0.0, Name=None,
TTSConfig=None, UseCache=True, AsNewFrame=False)`: appends
`Voice(Name=Name or "", ..., Text=Text, TTSConfig=TTSConfig,
UseCache=UseCache, Source=VoiceSource.TTS)`. -/
def AddVoiceTTS (avr : AnimatedVoiceRequest) (Text : String)
    (PreGap : Rat := 0) (PostGap : Rat := 0) (Name : Option String := none)
    (TTSConfig : Option TTSConfiguration := none) (UseCache : Bool := true)
    (AsNewFrame : Bool := false) : AnimatedVoiceRequest :=
  let avr := if AsNewFrame || avr.AnimatedVoices.isEmpty then avr.CreateNewFrame else avr
  avr.modifyLastFrame fun f =>
    { f with Voices := f.Voices ++
        [{ Name := pyOrStr Name "", PreGap := PreGap, PostGap := PostGap,
           Text := some Text, TTSConfig := TTSConfig, UseCache := UseCache,
           Source := VoiceSource.TTS }] }

/-- `AddAnimation(self, Name, *, LayerName=None, Duration=0.0, FadeLength=-1.0,
Weight=1.0, PreGap=0.0, Description=None, AsNewFrame=False)`:
`target_layer = LayerName or self.BaseLayerName`; initialize the layer to `[]`
when absent; append
`Animation(Name=Name, LayerName=target_layer, Duration=Duration, ...)`. -/
def AddAnimation (avr : AnimatedVoiceRequest) (Name : String)
    (LayerName : Option String := none) (Duration : Rat := 0)
    (FadeLength : Rat := -1) (Weight : Rat := 1) (PreGap : Rat := 0)
    (Description : Option String := none) (AsNewFrame : Bool := false) :
    AnimatedVoiceRequest :=
  let avr := if AsNewFrame || avr.AnimatedVoices.isEmpty then avr.CreateNewFrame else avr
  let target_layer := pyOrStr LayerName avr.BaseLayerName
  avr.modifyLastFrame fun f =>
    { f with Animations := (dictAppendAt f.Animations target_layer
        { Name := Name, LayerName := some target_layer, Duration := Duration,
          FadeLength := FadeLength, Weight := Weight, PreGap := PreGap,
          Description := Description }) }

/-- `AddFace(self, Name, Duration=0.0, Description=None, AsNewFrame=False)`:
appends `FaceExpression(Name=Name, Duration=Duration,
Description=Description)`. -/
def AddFace (avr : AnimatedVoiceRequest) (Name : String)
    (Duration : Rat := 0) (Description : Option String := none)
    (AsNewFrame : Bool := false) : AnimatedVoiceRequest :=
  let avr := if AsNewFrame || avr.AnimatedVoices.isEmpty then avr.CreateNewFrame else avr
  avr.modifyLastFrame fun f =>
    { f with Faces := f.Faces ++
        [{ Name := Name, Duration := Duration, Description := Description }] }

end AnimatedVoiceRequest

/-- The last frame of a builder, or the empty frame when no frame exists
(`self.AnimatedVoices[-1]` at the places where non-emptiness is guaranteed). -/
def lastFrameD (avr : AnimatedVoiceRequest) : AnimatedVoice :=
  (avr.AnimatedVoices.getLast?).getD AnimatedVoice.default

/-- One invocation of one of the five `Add*` builder operations, with all of
its (Python-defaultable) arguments made explicit. -/
inductive BuilderOp where
  | addVoice (Name : String) (PreGap PostGap : Rat) (AsNewFrame : Bool)
  | addVoiceWeb (Url : String) (PreGap PostGap : Rat) (Name : Option String)
      (UseCache : Bool) (AsNewFrame : Bool)
  | addVoiceTTS (Text : String) (PreGap PostGap : Rat) (Name : Option String)
      (TTSConfig : Option TTSConfiguration) (UseCache : Bool) (AsNewFrame : Bool)
  | addAnimation (Name : String) (LayerName : Option String)
      (Duration FadeLength Weight PreGap : Rat) (Description : Option String)
      (AsNewFrame : Bool)
  | addFace (Name : String) (Duration : Rat) (Description : Option String)
      (AsNewFrame : Bool)
deriving DecidableEq, Repr

namespace BuilderOp

/-- Run one builder operation on an `AnimatedVoiceRequest` (dispatch to the
corresponding method). -/
def apply (op : BuilderOp) (avr : AnimatedVoiceRequest) : AnimatedVoiceRequest :=
  match op with
  | addVoice N pre post anf => avr.AddVoice N pre post anf
  | addVoiceWeb U pre post N uc anf => avr.AddVoiceWeb U pre post N uc anf
  | addVoiceTTS T pre post N cfg uc anf => avr.AddVoiceTTS T pre post N cfg uc anf
  | addAnimation N L d fl w pre desc anf => avr.AddAnimation N L d fl w pre desc anf
  | addFace N d desc anf => avr.AddFace N d desc anf

/-- Run a sequence of builder operations, left to right. -/
def applyAll (ops : List BuilderOp) (avr : AnimatedVoiceRequest) : AnimatedVoiceRequest :=
  ops.foldl (fun a op => op.apply a) avr

/-- The `AsNewFrame` flag of an operation. -/
def asNewFrame : BuilderOp → Bool
  | addVoice _ _ _ anf => anf
  | addVoiceWeb _ _ _ _ _ anf => anf
  | addVoiceTTS _ _ _ _ _ _ anf => anf
  | addAnimation _ _ _ _ _ _ _ anf => anf
  | addFace _ _ _ anf => anf

/-- The frame an operation produces when it runs against a brand-new empty
frame of a builder whose `BaseLayerName` is `base`: the empty frame holding
exactly the one element the operation appends. -/
def singletonFrame (base : String) : BuilderOp → AnimatedVoice
  | addVoice N pre post _ =>
      { Voices := [{ Name := N, PreGap := pre, PostGap := post,
                     Source := VoiceSource.Local, UseCache := false }] }
  | addVoiceWeb U pre post N uc _ =>
      { Voices := [{ Name := pyOrStr N "", PreGap := pre, PostGap := post,
                     Url := some U, UseCache := uc, Source := VoiceSource.Web }] }
  | addVoiceTTS T pre post N cfg uc _ =>
      { Voices := [{ Name := pyOrStr N "", PreGap := pre, PostGap := post,
                     Text := some T, TTSConfig := cfg, UseCache := uc,
                     Source := VoiceSource.TTS }] }
  | addAnimation N L d fl w pre desc _ =>
      { Animations := [(pyOrStr L base,
          [{ Name := N, LayerName := some (pyOrStr L base), Duration := d,
             FadeLength := fl, Weight := w, PreGap := pre, Description := desc }])] }
  | addFace N d desc _ =>
      { Faces := [{ Name := N, Duration := d, Description := desc }] }

end BuilderOp

/-- `class Response(BaseModel)`. `CreatedAt` instants are abstract (`Nat`). -/
structure Response where
  Id : String
  CreatedAt : Nat
  Text : Option String := none
  AnimatedVoiceRequests : List AnimatedVoiceRequest := [AnimatedVoiceRequest.default]
  Payloads : Option String := none
deriving DecidableEq, Repr

/-- Constructing `Response(...)` through pydantic. `moduleLoadTime` is the
instant the module was imported: the class-body default
`CreatedAt: datetime = datetime.utcnow()` is evaluated exactly once, at class
creation, so every construction that omits `CreatedAt` receives that one
value. `constructionTime` is the instant this particular instance is built; it
is not consulted by any default. The `AnimatedVoiceRequests` default
`[AnimatedVoiceRequest()]` is deep-copied per instance by pydantic, so each
omission yields (a fresh copy of) the one-element list of the default
builder. -/
def Response.construct (moduleLoadTime : Nat) (constructionTime : Nat) (Id : String)
    (CreatedAt : Option Nat := none) (Text : Option String := none)
    (AnimatedVoiceRequests : Option (List AnimatedVoiceRequest) := none)
    (Payloads : Option String := none) : Response :=
  { Id := Id,
    CreatedAt := CreatedAt.getD moduleLoadTime,
    Text := Text,
    AnimatedVoiceRequests := AnimatedVoiceRequests.getD [AnimatedVoiceRequest.default],
    Payloads := Payloads }

/-- In-place mutation of the last element of a Python list: `l[-1].method(...)`
replaces the last element by its updated value; on an empty list the `[-1]`
access raises `IndexError`, modelled as `none`. -/
def updateLast (f : α → α) : List α → Option (List α)
  | [] => none
  | [a] => some [f a]
  | a :: b :: rest => (updateLast f (b :: rest)).map (fun l => a :: l)

namespace Response

/-- `Response.AddVoice`: delegates to `self.AnimatedVoiceRequest.AddVoice`,
where the property `AnimatedVoiceRequest` reads `self.AnimatedVoiceRequests[-1]`. -/
def AddVoice (r : Response) (Name : String) (PreGap : Rat := 0) (PostGap : Rat := 0)
    (AsNewFrame : Bool := false) : Option Response :=
  (updateLast (fun a => a.AddVoice Name PreGap PostGap AsNewFrame)
      r.AnimatedVoiceRequests).map
    (fun l => { r with AnimatedVoiceRequests := l })

/-- `Response.AddVoiceWeb`: delegates to the trailing builder. -/
def AddVoiceWeb (r : Response) (Url : String) (PreGap : Rat := 0) (PostGap : Rat := 0)
    (Name : Option String := none) (UseCache : Bool := true)
    (AsNewFrame : Bool := false) : Option Response :=
  (updateLast (fun a => a.AddVoiceWeb Url PreGap PostGap Name UseCache AsNewFrame)
      r.AnimatedVoiceRequests).map
    (fun l => { r with AnimatedVoiceRequests := l })

/-- `Response.AddVoiceTTS`: delegates to the trailing builder. -/
def AddVoiceTTS (r : Response) (Text : String) (PreGap : Rat := 0) (PostGap : Rat := 0)
    (Name : Option String := none) (TTSConfig : Option TTSConfiguration := none)
    (UseCache : Bool := true) (AsNewFrame : Bool := false) : Option Response :=
  (updateLast (fun a => a.AddVoiceTTS Text PreGap PostGap Name TTSConfig UseCache AsNewFrame)
      r.AnimatedVoiceRequests).map
    (fun l => { r with AnimatedVoiceRequests := l })

/-- `Response.AddAnimation`: delegates to the trailing builder. -/
def AddAnimation (r : Response) (Name : String) (LayerName : Option String := none)
    (Duration : Rat := 0) (FadeLength : Rat := -1) (Weight : Rat := 1)
    (PreGap : Rat := 0) (Description : Option String := none)
    (AsNewFrame : Bool := false) : Option Response :=
  (updateLast
      (fun a => a.AddAnimation Name LayerName Duration FadeLength Weight PreGap
        Description AsNewFrame)
      r.AnimatedVoiceRequests).map
    (fun l => { r with AnimatedVoiceRequests := l })

/-- `Response.AddFace`: delegates to the trailing builder. -/
def AddFace (r : Response) (Name : String) (Duration : Rat := 0)
    (Description : Option String := none) (AsNewFrame : Bool := false) :
    Option Response :=
  (updateLast (fun a => a.AddFace Name Duration Description AsNewFrame)
      r.AnimatedVoiceRequests).map
    (fun l => { r with AnimatedVoiceRequests := l })

/-- Run one of the five builder operations through the `Response` delegation
methods. -/
def applyOp (r : Response) (op : BuilderOp) : Option Response :=
  match op with
  | .addVoice N pre post anf => r.AddVoice N pre post anf
  | .addVoiceWeb U pre post N uc anf => r.AddVoiceWeb U pre post N uc anf
  | .addVoiceTTS T pre post N cfg uc anf => r.AddVoiceTTS T pre post N cfg uc anf
  | .addAnimation N L d fl w pre desc anf => r.AddAnimation N L d fl w pre desc anf
  | .addFace N d desc anf => r.AddFace N d desc anf

end Response

/-- A raised Python exception as seen by `from_exception`: either a
`ChatdollKitException` (the flag records whether it is the
`SkillNotFoundException` subclass, which adds no fields or overrides) carrying
`error_code`, `message` and `root_cause`, or any other exception carrying its
own string rendering. -/
inductive PyException where
  | chatdollkit (skillNotFound : Bool) (error_code : String) (message : String)
      (root_cause : Option String)
  | other (text : String)
deriving DecidableEq, Repr

/-- `str(ex)`: `ChatdollKitException.__str__` returns `self.message`; for any
other exception it is that exception's own rendering. -/
def PyException.str : PyException → String
  | chatdollkit _ _ m _ => m
  | other t => t

/-- `isinstance(ex, ChatdollKitException)` — true also for the
`SkillNotFoundException` subclass. -/
def PyException.isChatdollkit : PyException → Bool
  | chatdollkit _ _ _ _ => true
  | other _ => false

/-- `class ApiError(BaseModel)`. -/
structure ApiError where
  Code : String
  Message : String
  Detail : Option String := none
deriving DecidableEq, Repr

/-- `class ApiResponseBase(BaseModel)`. -/
structure ApiResponseBase where
  Error : Option ApiError := none
deriving DecidableEq, Repr

/-- `ApiResponseBase.from_exception(ex, debug=False)`. `tb` is the text
produced by `traceback.format_exc()` for the exception being handled — an
input from the runtime environment. -/
def ApiResponseBase.from_exception (ex : PyException) (debug : Bool := false)
    (tb : String := "") : ApiResponseBase :=
  let codeMsg : String × String :=
    match ex with
    | .chatdollkit _ c m _ => (c, m)
    | .other _ => ("E9999", "Unexpected error")
  let error_code := codeMsg.1
  let message := codeMsg.2
  { Error := some
      { Code := error_code,
        Message := message,
        Detail := if debug then some (ex.str ++ "\n" ++ tb) else none } }

/-- Python `str.split` with a one-character separator, over the character
list: every occurrence of the separator ends a segment, empty segments are
kept, and splitting the empty string yields one empty segment (as in Python,
where `"".split(",") == [""]`). -/
def splitCharList (c : Char) : List Char → List (List Char)
  | [] => [[]]
  | x :: xs =>
      let r := splitCharList c xs
      if x = c then [] :: r
      else
        match r with
        | [] => [[x]]
        | y :: ys => (x :: y) :: ys

/-- `s.split(",")` in Python. -/
def pySplitComma (s : String) : List String :=
  (splitCharList ',' s.data).map List.asString

/-- One token produced by the janome tokenizer: the attributes read by
`WordNode.from_janome`. Janome reports "no value" for an attribute as the
sentinel string `"*"`. -/
structure JanomeToken where
  surface : String
  part_of_speech : String
  infl_type : String
  infl_form : String
  base_form : String
  reading : String
  phonetic : String
deriving DecidableEq, Repr

/-- `class WordNode(BaseModel)`. -/
structure WordNode where
  Word : String
  Part : String
  PartDetail1 : String
  PartDetail2 : String
  PartDetail3 : String
  StemType : String
  StemForm : String
  OriginalForm : String
  Kana : String
  Pronunciation : String
deriving DecidableEq, Repr

/-- `WordNode.from_janome(tokens)`: one `WordNode` per token, in order.
`ps = t.part_of_speech.split(",")`; each ranked part-of-speech field is
`ps[i] if len(ps) > i+1 and ps[i] != "*" else ""` (note the guard compares
against `i+1`, not `i`); each remaining morphological attribute `v` becomes
`v if v != "*" else ""`. -/
def WordNode.from_janome (tokens : List JanomeToken) : List WordNode :=
  tokens.map fun t =>
    let ps := pySplitComma t.part_of_speech
    { Word := t.surface,
      Part := if 1 < ps.length ∧ ps.getD 0 "" ≠ "*" then ps.getD 0 "" else "",
      PartDetail1 := if 2 < ps.length ∧ ps.getD 1 "" ≠ "*" then ps.getD 1 "" else "",
      PartDetail2 := if 3 < ps.length ∧ ps.getD 2 "" ≠ "*" then ps.getD 2 "" else "",
      PartDetail3 := if 4 < ps.length ∧ ps.getD 3 "" ≠ "*" then ps.getD 3 "" else "",
      StemType := if t.infl_type ≠ "*" then t.infl_type else "",
      StemForm := if t.infl_form ≠ "*" then t.infl_form else "",
      OriginalForm := if t.base_form ≠ "*" then t.base_form else "",
      Kana := if t.reading ≠ "*" then t.reading else "",
      Pronunciation := if t.phonetic ≠ "*" then t.phonetic else "" }

/-- Modelled from the spec: the tokenizer-adapter contract as the
specification words it — the part-of-speech tag is "split positionally into up
to four ranked fields (`Part`, `PartDetail1..3`) with missing ranks defaulting
to empty string", and `"*"` entries are likewise normalized to the empty
string. So rank `i` is taken from segment `i` whenever that segment exists. -/
def WordNode.from_janome_specified (tokens : List JanomeToken) : List WordNode :=
  tokens.map fun t =>
    let ps := pySplitComma t.part_of_speech
    { Word := t.surface,
      Part := if 0 < ps.length ∧ ps.getD 0 "" ≠ "*" then ps.getD 0 "" else "",
      PartDetail1 := if 1 < ps.length ∧ ps.getD 1 "" ≠ "*" then ps.getD 1 "" else "",
      PartDetail2 := if 2 < ps.length ∧ ps.getD 2 "" ≠ "*" then ps.getD 2 "" else "",
      PartDetail3 := if 3 < ps.length ∧ ps.getD 3 "" ≠ "*" then ps.getD 3 "" else "",
      StemType := if t.infl_type ≠ "*" then t.infl_type else "",
      StemForm := if t.infl_form ≠ "*" then t.infl_form else "",
      OriginalForm := if t.base_form ≠ "*" then t.base_form else "",
      Kana := if t.reading ≠ "*" then t.reading else "",
      Pronunciation := if t.phonetic ≠ "*" then t.phonetic else "" }

/-! ## Structural lemmas about the frame builder -/

/-- The effect of one `Add*` operation on an arbitrary frame: the append its
body performs after the new-frame guard. -/
def BuilderOp.appendElem (base : String) : BuilderOp → AnimatedVoice → AnimatedVoice
  | .addVoice N pre post _, f =>
      { f with Voices := f.Voices ++
          [{ Name := N, PreGap := pre, PostGap := post,
             Source := VoiceSource.Local, UseCache := false }] }
  | .addVoiceWeb U pre post N uc _, f =>
      { f with Voices := f.Voices ++
          [{ Name := pyOrStr N "", PreGap := pre, PostGap := post,
             Url := some U, UseCache := uc, Source := VoiceSource.Web }] }
  | .addVoiceTTS T pre post N cfg uc _, f =>
      { f with Voices := f.Voices ++
          [{ Name := pyOrStr N "", PreGap := pre, PostGap := post,
             Text := some T, TTSConfig := cfg, UseCache := uc,
             Source := VoiceSource.TTS }] }
  | .addAnimation N L d fl w pre desc _, f =>
      { f with Animations := (dictAppendAt f.Animations (pyOrStr L base)
          { Name := N, LayerName := some (pyOrStr L base), Duration := d,
            FadeLength := fl, Weight := w, PreGap := pre, Description := desc }) }
  | .addFace N d desc _, f =>
      { f with Faces := f.Faces ++
          [{ Name := N, Duration := d, Description := desc }] }

theorem AnimatedVoiceRequest.createNewFrame_animatedVoices (avr : AnimatedVoiceRequest) :
    (avr.CreateNewFrame).AnimatedVoices = avr.AnimatedVoices ++ [AnimatedVoice.default] :=
  rfl

theorem AnimatedVoiceRequest.createNewFrame_baseLayerName (avr : AnimatedVoiceRequest) :
    (avr.CreateNewFrame).BaseLayerName = avr.BaseLayerName :=
  rfl

theorem AnimatedVoiceRequest.modifyLastFrame_animatedVoices (avr : AnimatedVoiceRequest)
    (g : AnimatedVoice → AnimatedVoice) :
    (avr.modifyLastFrame g).AnimatedVoices =
      avr.AnimatedVoices.dropLast ++ [g (lastFrameD avr)] :=
  rfl

theorem lastFrameD_createNewFrame (avr : AnimatedVoiceRequest) :
    lastFrameD avr.CreateNewFrame = AnimatedVoice.default := by
  simp [lastFrameD, AnimatedVoiceRequest.CreateNewFrame, List.getLast?_concat]

theorem lastFrameD_modifyLastFrame (avr : AnimatedVoiceRequest)
    (g : AnimatedVoice → AnimatedVoice) :
    lastFrameD (avr.modifyLastFrame g) = g (lastFrameD avr) := by
  simp [lastFrameD, AnimatedVoiceRequest.modifyLastFrame, List.getLast?_concat]

/-- Every `Add*` operation is the new-frame guard followed by the in-place
append on the (now guaranteed) last frame. -/
theorem BuilderOp.apply_eq (op : BuilderOp) (avr : AnimatedVoiceRequest) :
    op.apply avr =
      AnimatedVoiceRequest.modifyLastFrame
        (if op.asNewFrame || avr.AnimatedVoices.isEmpty then avr.CreateNewFrame else avr)
        (op.appendElem avr.BaseLayerName) := by
  cases op <;>
    first
      | rfl
      | (simp only [apply, AnimatedVoiceRequest.AddAnimation, asNewFrame, appendElem]
         split <;> rfl)

theorem BuilderOp.appendElem_default (op : BuilderOp) (base : String) :
    op.appendElem base AnimatedVoice.default = op.singletonFrame base := by
  cases op <;> rfl

theorem BuilderOp.apply_baseLayerName (op : BuilderOp) (avr : AnimatedVoiceRequest) :
    (op.apply avr).BaseLayerName = avr.BaseLayerName := by
  rw [BuilderOp.apply_eq]
  split <;> rfl

/-- On the new-frame path (flag set, or no frame yet) an operation appends a
fresh frame holding exactly its element. -/
theorem BuilderOp.apply_animatedVoices_of_newFrame (op : BuilderOp)
    (avr : AnimatedVoiceRequest)
    (hc : (op.asNewFrame || avr.AnimatedVoices.isEmpty) = true) :
    (op.apply avr).AnimatedVoices =
      avr.AnimatedVoices ++ [op.singletonFrame avr.BaseLayerName] := by
  rw [BuilderOp.apply_eq, if_pos hc, AnimatedVoiceRequest.modifyLastFrame_animatedVoices,
    lastFrameD_createNewFrame, BuilderOp.appendElem_default,
    AnimatedVoiceRequest.createNewFrame_animatedVoices, List.dropLast_concat]

/-- On the append path (flag clear and at least one frame) an operation
rewrites only the last frame, by appending its element there. -/
theorem BuilderOp.apply_animatedVoices_of_append (op : BuilderOp)
    (avr : AnimatedVoiceRequest) (h1 : op.asNewFrame = false)
    (h2 : avr.AnimatedVoices ≠ []) :
    (op.apply avr).AnimatedVoices =
      avr.AnimatedVoices.dropLast ++
        [op.appendElem avr.BaseLayerName (lastFrameD avr)] := by
  rw [BuilderOp.apply_eq, h1]
  simp [List.isEmpty_iff, h2, AnimatedVoiceRequest.modifyLastFrame_animatedVoices]

theorem BuilderOp.apply_animatedVoices_ne_nil (op : BuilderOp)
    (avr : AnimatedVoiceRequest) : (op.apply avr).AnimatedVoices ≠ [] := by
  rw [BuilderOp.apply_eq, AnimatedVoiceRequest.modifyLastFrame_animatedVoices]
  simp

theorem BuilderOp.applyAll_animatedVoices_ne_nil (ops : List BuilderOp)
    (avr : AnimatedVoiceRequest) (h : avr.AnimatedVoices ≠ []) :
    (BuilderOp.applyAll ops avr).AnimatedVoices ≠ [] := by
  induction ops generalizing avr with
  | nil => exact h
  | cons o os ih => exact ih _ (o.apply_animatedVoices_ne_nil avr)

theorem lastFrameD_apply (op : BuilderOp) (avr : AnimatedVoiceRequest) :
    lastFrameD (op.apply avr) =
      op.appendElem avr.BaseLayerName
        (if op.asNewFrame || avr.AnimatedVoices.isEmpty then AnimatedVoice.default
         else lastFrameD avr) := by
  rw [BuilderOp.apply_eq]
  split <;> rw [lastFrameD_modifyLastFrame]
  · rw [lastFrameD_createNewFrame]

/-! ## Lemmas about the layer map and list helpers -/

theorem dictLookup_dictAppendAt_self (d : List (String × List Animation))
    (k : String) (a : Animation) :
    dictLookup (dictAppendAt d k a) k = some ((dictLookup d k).getD [] ++ [a]) := by
  induction d with
  | nil => simp [dictAppendAt, dictLookup]
  | cons p rest ih =>
      obtain ⟨k', v⟩ := p
      by_cases hk : k' = k
      · subst hk
        simp [dictAppendAt, dictLookup]
      · simp [dictAppendAt, dictLookup, hk, ih]

theorem dictLookup_dictAppendAt_ne (d : List (String × List Animation))
    (k k' : String) (a : Animation) (h : k' ≠ k) :
    dictLookup (dictAppendAt d k a) k' = dictLookup d k' := by
  induction d with
  | nil => simp [dictAppendAt, dictLookup, Ne.symm h]
  | cons p rest ih =>
      obtain ⟨k₀, v⟩ := p
      by_cases hk : k₀ = k
      · subst hk
        simp [dictAppendAt, dictLookup, Ne.symm h]
      · simp [dictAppendAt, dictLookup, hk, ih]

theorem updateLast_eq_of_ne_nil {α : Type _} (f : α → α) (d : α) (l : List α)
    (h : l ≠ []) :
    updateLast f l = some (l.dropLast ++ [f ((l.getLast?).getD d)]) := by
  induction l with
  | nil => exact absurd rfl h
  | cons a rest ih =>
      cases rest with
      | nil => rfl
      | cons b rest' =>
          rw [updateLast, ih (by simp)]
          simp [List.getLast?_cons_cons]

/-! ## C1 / C4 / C5: the frame builder -/

/-- C1: after any `Add*` operation, `AnimatedVoices` is non-empty, and it
stays non-empty under every further sequence of builder operations (also
under a further `CreateNewFrame`); the very first `Add*` call on a builder
with zero frames — whatever its `AsNewFrame` flag — creates exactly one
frame, holding exactly the added element, and (being a total function)
never errors. -/
theorem add_keeps_animatedVoices_nonempty (avr : AnimatedVoiceRequest)
    (op : BuilderOp) (rest : List BuilderOp) :
    (op.apply avr).AnimatedVoices ≠ [] ∧
      (BuilderOp.applyAll rest (op.apply avr)).AnimatedVoices ≠ [] ∧
      ((BuilderOp.applyAll rest (op.apply avr)).CreateNewFrame).AnimatedVoices ≠ [] ∧
      (avr.AnimatedVoices = [] →
        (op.apply avr).AnimatedVoices = [op.singletonFrame avr.BaseLayerName]) := by
  refine ⟨op.apply_animatedVoices_ne_nil avr,
    BuilderOp.applyAll_animatedVoices_ne_nil rest _ (op.apply_animatedVoices_ne_nil avr),
    ?_, ?_⟩
  · rw [AnimatedVoiceRequest.createNewFrame_animatedVoices]
    simp
  · intro h
    rw [BuilderOp.apply_animatedVoices_of_newFrame op avr (by simp [h]), h,
      List.nil_append]

theorem add_keeps_animatedVoices_nonempty_witness :
    ((BuilderOp.addFace "smile" 0 none false).apply
        AnimatedVoiceRequest.default).AnimatedVoices =
        [{ Faces := [{ Name := "smile", Duration := 0, Description := none }] }] ∧
      ((BuilderOp.addFace "smile" 0 none false).apply
        AnimatedVoiceRequest.default).AnimatedVoices ≠ [] ∧
      (BuilderOp.applyAll [BuilderOp.addVoice "hello" 0 0 true]
        ((BuilderOp.addFace "smile" 0 none false).apply
          AnimatedVoiceRequest.default)).AnimatedVoices ≠ [] := by
  have h := add_keeps_animatedVoices_nonempty AnimatedVoiceRequest.default
    (BuilderOp.addFace "smile" 0 none false) [BuilderOp.addVoice "hello" 0 0 true]
  exact ⟨h.2.2.2 rfl, h.1, h.2.1⟩

/-- C4: `AddFace("smile")` then `AddFace("wink", AsNewFrame=True)` on a fresh
builder yields exactly two frames, each holding exactly one face entry, in
that order; in general any `Add*` call with `AsNewFrame=true` on a non-empty
builder appends one new frame and places its element there. -/
theorem asNewFrame_appends_singleton_frame (avr : AnimatedVoiceRequest)
    (op : BuilderOp) (h1 : op.asNewFrame = true) (_h2 : avr.AnimatedVoices ≠ []) :
    (op.apply avr).AnimatedVoices =
        avr.AnimatedVoices ++ [op.singletonFrame avr.BaseLayerName] ∧
      ((AnimatedVoiceRequest.default.AddFace "smile" 0 none
            false).AddFace "wink" 0 none true).AnimatedVoices =
        [{ Faces := [{ Name := "smile", Duration := 0, Description := none }] },
         { Faces := [{ Name := "wink", Duration := 0, Description := none }] }] := by
  exact ⟨op.apply_animatedVoices_of_newFrame avr (by simp [h1]), rfl⟩

theorem asNewFrame_appends_singleton_frame_witness :
    ((BuilderOp.addFace "wink" 0 none true).apply
        (AnimatedVoiceRequest.default.AddFace "smile" 0 none false)).AnimatedVoices =
        [{ Faces := [{ Name := "smile", Duration := 0, Description := none }] },
         { Faces := [{ Name := "wink", Duration := 0, Description := none }] }] ∧
      ((AnimatedVoiceRequest.default.AddFace "smile" 0 none
            false).AddFace "wink" 0 none true).AnimatedVoices =
        [{ Faces := [{ Name := "smile", Duration := 0, Description := none }] },
         { Faces := [{ Name := "wink", Duration := 0, Description := none }] }] := by
  have h := asNewFrame_appends_singleton_frame
    (AnimatedVoiceRequest.default.AddFace "smile" 0 none false)
    (BuilderOp.addFace "wink" 0 none true) rfl (by decide)
  exact ⟨h.1, h.2⟩

/-- C5: `AddVoice` appends a `Voice` with `Source=Local`, `UseCache=false`,
`Text=None`, `Url=None`; `AddVoiceWeb` with `Name`/`UseCache` omitted appends
a `Voice` with `Source=Web`, `UseCache=true` and `Name=""` (not null);
`AddVoiceTTS` with `Name`/`UseCache` omitted appends a `Voice` with
`Source=TTS`, `UseCache=true` and `Text` the given text. -/
theorem voice_source_defaults (avr : AnimatedVoiceRequest) (N U T : String)
    (pre post : Rat) (anf : Bool) :
    (lastFrameD (avr.AddVoice N pre post anf)).Voices.getLast? =
        some { Name := N, PreGap := pre, PostGap := post, Text := none, Url := none,
               TTSConfig := none, Source := VoiceSource.Local, UseCache := false } ∧
      (lastFrameD (avr.AddVoiceWeb U pre post)).Voices.getLast? =
        some { Name := "", PreGap := pre, PostGap := post, Text := none,
               Url := some U, TTSConfig := none, Source := VoiceSource.Web,
               UseCache := true } ∧
      (lastFrameD (avr.AddVoiceTTS T pre post)).Voices.getLast? =
        some { Name := "", PreGap := pre, PostGap := post, Text := some T,
               Url := none, TTSConfig := none, Source := VoiceSource.TTS,
               UseCache := true } := by
  refine ⟨?_, ?_, ?_⟩
  · show (lastFrameD ((BuilderOp.addVoice N pre post anf).apply avr)).Voices.getLast? = _
    rw [lastFrameD_apply]
    simp [BuilderOp.appendElem, List.getLast?_concat]
  · show (lastFrameD ((BuilderOp.addVoiceWeb U pre post none true false).apply
        avr)).Voices.getLast? = _
    rw [lastFrameD_apply]
    simp [BuilderOp.appendElem, List.getLast?_concat, pyOrStr]
  · show (lastFrameD ((BuilderOp.addVoiceTTS T pre post none none true false).apply
        avr)).Voices.getLast? = _
    rw [lastFrameD_apply]
    simp [BuilderOp.appendElem, List.getLast?_concat, pyOrStr]

/-! ## C2 / C3: animation layer resolution -/

/-- The last frame after `AddAnimation`: the element is appended (under the
resolved layer key, initializing it when absent) to the frame the call targets
— a fresh empty frame on the new-frame path, the previous last frame
otherwise. -/
theorem lastFrameD_addAnimation (avr : AnimatedVoiceRequest) (N : String)
    (L : Option String) (d fl w pre : Rat) (desc : Option String) (anf : Bool) :
    lastFrameD (avr.AddAnimation N L d fl w pre desc anf) =
      { (if anf || avr.AnimatedVoices.isEmpty then AnimatedVoice.default
         else lastFrameD avr) with
        Animations := (dictAppendAt
          (if anf || avr.AnimatedVoices.isEmpty then AnimatedVoice.default
           else lastFrameD avr).Animations
          (pyOrStr L avr.BaseLayerName)
          { Name := N, LayerName := some (pyOrStr L avr.BaseLayerName),
            Duration := d, FadeLength := fl, Weight := w, PreGap := pre,
            Description := desc }) } := by
  show lastFrameD ((BuilderOp.addAnimation N L d fl w pre desc anf).apply avr) = _
  rw [lastFrameD_apply]
  simp only [BuilderOp.asNewFrame, BuilderOp.appendElem]

/-- C2: on a fresh builder (`BaseLayerName = "Base Layer"`), `AddAnimation`
of "walk", then "wave" on layer "Arms", then "run", with no new frames,
yields exactly one frame whose `Animations` mapping sends "Base Layer" to the
ordered pair walk-then-run and "Arms" to the single wave animation. -/
theorem layer_grouping_example :
    (((AnimatedVoiceRequest.default.AddAnimation "walk" none 0 (-1) 1 0 none
          false).AddAnimation "wave" (some "Arms") 0 (-1) 1 0 none
          false).AddAnimation "run" none 0 (-1) 1 0 none
          false).AnimatedVoices.length = 1 ∧
      (lastFrameD (((AnimatedVoiceRequest.default.AddAnimation "walk" none 0 (-1) 1 0
          none false).AddAnimation "wave" (some "Arms") 0 (-1) 1 0 none
          false).AddAnimation "run" none 0 (-1) 1 0 none false)).Animations =
        [("Base Layer",
          [{ Name := "walk", LayerName := some "Base Layer", Duration := 0,
             FadeLength := -1, Weight := 1, PreGap := 0, Description := none },
           { Name := "run", LayerName := some "Base Layer", Duration := 0,
             FadeLength := -1, Weight := 1, PreGap := 0, Description := none }]),
         ("Arms",
          [{ Name := "wave", LayerName := some "Arms", Duration := 0,
             FadeLength := -1, Weight := 1, PreGap := 0, Description := none }])] ∧
      (dictLookup (lastFrameD (((AnimatedVoiceRequest.default.AddAnimation "walk" none
          0 (-1) 1 0 none false).AddAnimation "wave" (some "Arms") 0 (-1) 1 0 none
          false).AddAnimation "run" none 0 (-1) 1 0 none false)).Animations
          "Base Layer").map (List.map Animation.Name) = some ["walk", "run"] ∧
      (dictLookup (lastFrameD (((AnimatedVoiceRequest.default.AddAnimation "walk" none
          0 (-1) 1 0 none false).AddAnimation "wave" (some "Arms") 0 (-1) 1 0 none
          false).AddAnimation "run" none 0 (-1) 1 0 none false)).Animations
          "Arms").map (List.map Animation.Name) = some ["wave"] :=
  ⟨rfl, rfl, rfl, rfl⟩

/-- C3 (amended): the target layer of `AddAnimation` is the `LayerName`
argument when one is given *and it is non-empty* (Python `or` also discards a
falsy empty string), else the builder's `BaseLayerName`; an absent layer key
is initialized to the empty sequence and the new `Animation` (which records
the resolved layer) is appended to that layer, other layers untouched;
resolution is per call and `BaseLayerName` is stable, so two animations added
without an explicit `LayerName` in the same frame land on the base layer. -/
theorem addAnimation_layer_resolution (avr : AnimatedVoiceRequest) (N N₂ : String)
    (L : Option String) (d fl w pre : Rat) (desc : Option String) (anf : Bool)
    (k : String) :
    (dictLookup (lastFrameD (avr.AddAnimation N L d fl w pre desc anf)).Animations
        (pyOrStr L avr.BaseLayerName) =
      some ((dictLookup (if anf || avr.AnimatedVoices.isEmpty then AnimatedVoice.default
              else lastFrameD avr).Animations (pyOrStr L avr.BaseLayerName)).getD [] ++
            [{ Name := N, LayerName := some (pyOrStr L avr.BaseLayerName),
               Duration := d, FadeLength := fl, Weight := w, PreGap := pre,
               Description := desc }])) ∧
      (L = none → pyOrStr L avr.BaseLayerName = avr.BaseLayerName) ∧
      (k ≠ pyOrStr L avr.BaseLayerName →
        dictLookup (lastFrameD (avr.AddAnimation N L d fl w pre desc anf)).Animations k =
          dictLookup (if anf || avr.AnimatedVoices.isEmpty then AnimatedVoice.default
              else lastFrameD avr).Animations k) ∧
      ((avr.AddAnimation N L d fl w pre desc anf).BaseLayerName = avr.BaseLayerName) ∧
      (dictLookup (lastFrameD ((avr.AddAnimation N none d fl w pre desc
            anf).AddAnimation N₂ none d fl w pre desc false)).Animations
          avr.BaseLayerName =
        some ((dictLookup (if anf || avr.AnimatedVoices.isEmpty then AnimatedVoice.default
                else lastFrameD avr).Animations avr.BaseLayerName).getD [] ++
              [{ Name := N, LayerName := some avr.BaseLayerName, Duration := d,
                 FadeLength := fl, Weight := w, PreGap := pre, Description := desc },
               { Name := N₂, LayerName := some avr.BaseLayerName, Duration := d,
                 FadeLength := fl, Weight := w, PreGap := pre, Description := desc }])) := by
  have hbase : ∀ (M : String) (LL : Option String) (dd ff ww pp : Rat)
      (de : Option String) (af : Bool) (a : AnimatedVoiceRequest),
      (a.AddAnimation M LL dd ff ww pp de af).BaseLayerName = a.BaseLayerName :=
    fun M LL dd ff ww pp de af a =>
      BuilderOp.apply_baseLayerName (BuilderOp.addAnimation M LL dd ff ww pp de af) a
  refine ⟨?_, ?_, ?_, hbase N L d fl w pre desc anf avr, ?_⟩
  · rw [lastFrameD_addAnimation]
    exact dictLookup_dictAppendAt_self _ _ _
  · intro hL
    subst hL
    rfl
  · intro hk
    rw [lastFrameD_addAnimation]
    exact dictLookup_dictAppendAt_ne _ _ _ _ hk
  · have hne := BuilderOp.apply_animatedVoices_ne_nil
      (BuilderOp.addAnimation N none d fl w pre desc anf) avr
    have hemp : (avr.AddAnimation N none d fl w pre desc anf).AnimatedVoices.isEmpty
        = false := by
      simpa [List.isEmpty_iff] using hne
    rw [lastFrameD_addAnimation (avr.AddAnimation N none d fl w pre desc anf) N₂ none
      d fl w pre desc false]
    simp only [hemp, Bool.false_or, if_neg, Bool.false_eq_true, not_false_eq_true,
      hbase N none d fl w pre desc anf avr, pyOrStr]
    rw [dictLookup_dictAppendAt_self, lastFrameD_addAnimation]
    simp only [pyOrStr]
    rw [dictLookup_dictAppendAt_self]
    simp

/-- C3 counterexample: with `BaseLayerName = "Base Layer"`, calling
`AddAnimation("walk", LayerName="")` — a given (but empty) `LayerName` — does
not target layer `""` as the claim states; Python's `LayerName or
self.BaseLayerName` discards the falsy empty string and the animation lands
on `"Base Layer" ≠ ""`. -/
theorem addAnimation_empty_layerName_cex :
    dictLookup (lastFrameD (AnimatedVoiceRequest.default.AddAnimation "walk"
        (some "") 0 (-1) 1 0 none false)).Animations "" = none ∧
      dictLookup (lastFrameD (AnimatedVoiceRequest.default.AddAnimation "walk"
          (some "") 0 (-1) 1 0 none false)).Animations "Base Layer" =
        some [{ Name := "walk", LayerName := some "Base Layer", Duration := 0,
                FadeLength := -1, Weight := 1, PreGap := 0, Description := none }] ∧
      ("Base Layer" : String) ≠ "" := by
  refine ⟨rfl, rfl, ?_⟩
  decide

theorem addAnimation_layer_resolution_witness :
    (dictLookup (lastFrameD (AnimatedVoiceRequest.default.AddAnimation "walk" none 0
        (-1) 1 0 none false)).Animations "Base Layer" =
      some [{ Name := "walk", LayerName := some "Base Layer", Duration := 0,
              FadeLength := -1, Weight := 1, PreGap := 0, Description := none }]) ∧
      (pyOrStr none AnimatedVoiceRequest.default.BaseLayerName = "Base Layer") ∧
      (dictLookup (lastFrameD (AnimatedVoiceRequest.default.AddAnimation "walk" none 0
          (-1) 1 0 none false)).Animations "Arms" = none) ∧
      ((AnimatedVoiceRequest.default.AddAnimation "walk" none 0 (-1) 1 0 none
          false).BaseLayerName = "Base Layer") ∧
      (dictLookup (lastFrameD ((AnimatedVoiceRequest.default.AddAnimation "walk" none 0
            (-1) 1 0 none false).AddAnimation "run" none 0 (-1) 1 0 none
            false)).Animations "Base Layer" =
        some [{ Name := "walk", LayerName := some "Base Layer", Duration := 0,
                FadeLength := -1, Weight := 1, PreGap := 0, Description := none },
              { Name := "run", LayerName := some "Base Layer", Duration := 0,
                FadeLength := -1, Weight := 1, PreGap := 0, Description := none }]) := by
  have h := addAnimation_layer_resolution AnimatedVoiceRequest.default "walk" "run"
    none 0 (-1) 1 0 none false "Arms"
  exact ⟨h.1, h.2.1 rfl, h.2.2.1 (by decide), h.2.2.2.1, h.2.2.2.2⟩

/-! ## C7 / C10: `Response` construction -/

/-- C7: a `Response` constructed without an explicit `AnimatedVoiceRequests`
argument and with no builder calls holds exactly one `AnimatedVoiceRequest`,
and that instance has zero frames. -/
theorem response_empty_construction (moduleLoadTime constructionTime : Nat)
    (id : String) :
    (Response.construct moduleLoadTime constructionTime id).AnimatedVoiceRequests =
        [AnimatedVoiceRequest.default] ∧
      (Response.construct moduleLoadTime constructionTime id).AnimatedVoiceRequests.length = 1 ∧
      AnimatedVoiceRequest.default.AnimatedVoices = ([] : List AnimatedVoice) :=
  ⟨rfl, rfl, rfl⟩

/-! ## C6: `Response` delegation to the trailing builder -/

/-- C6: each of the five builder operations invoked through a `Response`
rewrites exactly the last element of `AnimatedVoiceRequests` (by the
corresponding `AnimatedVoiceRequest` operation) and never creates a new
`AnimatedVoiceRequest`: the list length, every element before the last, and
the `Response`'s other fields are unchanged. -/
theorem response_delegates_to_last (r : Response) (op : BuilderOp)
    (h : r.AnimatedVoiceRequests ≠ []) :
    r.applyOp op = some { r with AnimatedVoiceRequests :=
        r.AnimatedVoiceRequests.dropLast ++
          [op.apply ((r.AnimatedVoiceRequests.getLast?).getD
            AnimatedVoiceRequest.default)] } ∧
      (r.applyOp op).map (fun x => x.AnimatedVoiceRequests.length) =
        some r.AnimatedVoiceRequests.length ∧
      (r.applyOp op).map (fun x => x.AnimatedVoiceRequests.dropLast) =
        some r.AnimatedVoiceRequests.dropLast ∧
      (r.applyOp op).map Response.Id = some r.Id ∧
      (r.applyOp op).map Response.CreatedAt = some r.CreatedAt ∧
      (r.applyOp op).map Response.Text = some r.Text ∧
      (r.applyOp op).map Response.Payloads = some r.Payloads := by
  have key : r.applyOp op = some { r with AnimatedVoiceRequests :=
      r.AnimatedVoiceRequests.dropLast ++
        [op.apply ((r.AnimatedVoiceRequests.getLast?).getD
          AnimatedVoiceRequest.default)] } := by
    cases op <;>
      (show (updateLast _ r.AnimatedVoiceRequests).map _ = _
       rw [updateLast_eq_of_ne_nil _ AnimatedVoiceRequest.default _ h]
       rfl)
  have hlen : (r.AnimatedVoiceRequests.dropLast ++
      [op.apply ((r.AnimatedVoiceRequests.getLast?).getD
        AnimatedVoiceRequest.default)]).length = r.AnimatedVoiceRequests.length := by
    have hpos := List.length_pos.mpr h
    simp [List.length_dropLast]
    omega
  refine ⟨key, ?_, ?_, ?_, ?_, ?_, ?_⟩ <;> rw [key]
  · simpa using hlen
  · simp [List.dropLast_concat]
  · rfl
  · rfl
  · rfl
  · rfl

theorem response_delegates_to_last_witness :
    Response.applyOp
        { Id := "r1", CreatedAt := 5,
          AnimatedVoiceRequests := [AnimatedVoiceRequest.default] }
        (BuilderOp.addVoice "hello" 0 0 false) =
      some { Id := "r1", CreatedAt := 5,
             AnimatedVoiceRequests :=
               [AnimatedVoiceRequest.default.AddVoice "hello" 0 0 false] } ∧
      (Response.applyOp
          { Id := "r1", CreatedAt := 5,
            AnimatedVoiceRequests := [AnimatedVoiceRequest.default] }
          (BuilderOp.addVoice "hello" 0 0 false)).map
        (fun x => x.AnimatedVoiceRequests.length) = some 1 ∧
      (Response.applyOp
          { Id := "r1", CreatedAt := 5,
            AnimatedVoiceRequests := [AnimatedVoiceRequest.default] }
          (BuilderOp.addVoice "hello" 0 0 false)).map Response.Id = some "r1" ∧
      (Response.applyOp
          { Id := "r1", CreatedAt := 5,
            AnimatedVoiceRequests := [AnimatedVoiceRequest.default] }
          (BuilderOp.addVoice "hello" 0 0 false)).map Response.CreatedAt = some 5 := by
  have h := response_delegates_to_last
    { Id := "r1", CreatedAt := 5,
      AnimatedVoiceRequests := [AnimatedVoiceRequest.default] }
    (BuilderOp.addVoice "hello" 0 0 false) (by decide)
  exact ⟨h.1, h.2.1, h.2.2.2.1, h.2.2.2.2.1⟩

/-! ## C8: exception-to-error mapping -/

/-- The error code the specification requires for an exception: the domain
error's own `error_code` (also for the skill-not-found variant), the fixed
`"E9999"` for anything else. -/
def PyException.specCode : PyException → String
  | .chatdollkit _ c _ _ => c
  | .other _ => "E9999"

/-- The error message the specification requires for an exception: the domain
error's own `message` (also for the skill-not-found variant), the fixed
`"Unexpected error"` for anything else. -/
def PyException.specMessage : PyException → String
  | .chatdollkit _ _ m _ => m
  | .other _ => "Unexpected error"

theorem append_newline_ne_empty (s t : String) : s ++ "\n" ++ t ≠ "" := by
  intro hcontra
  have hlen := congrArg String.length hcontra
  rw [String.length_append, String.length_append] at hlen
  have h1 : ("\n" : String).length = 1 := rfl
  have h0 : ("" : String).length = 0 := rfl
  omega

/-- C8: `from_exception` surfaces a domain error's own code and message
verbatim (also for the skill-not-found subclass) and maps any other exception
to the fixed `"E9999"` / `"Unexpected error"`; `Error.Detail` is `None`
exactly when `debug` is false, and when `debug` is true it is the non-empty
string holding the exception text and the traceback. -/
theorem from_exception_error_mapping (ex : PyException) (debug : Bool)
    (tb : String) :
    ((ApiResponseBase.from_exception ex debug tb).Error).map ApiError.Code =
        some ex.specCode ∧
      ((ApiResponseBase.from_exception ex debug tb).Error).map ApiError.Message =
        some ex.specMessage ∧
      (((ApiResponseBase.from_exception ex debug tb).Error).bind ApiError.Detail =
          none ↔ debug = false) ∧
      (debug = true →
        ((ApiResponseBase.from_exception ex debug tb).Error).bind ApiError.Detail =
            some (ex.str ++ "\n" ++ tb) ∧
          ex.str ++ "\n" ++ tb ≠ "") := by
  cases ex <;> cases debug <;>
    simp [ApiResponseBase.from_exception, PyException.specCode,
      PyException.specMessage, PyException.str, append_newline_ne_empty]

theorem from_exception_error_mapping_witness :
    ((ApiResponseBase.from_exception
          (PyException.chatdollkit true "E1001" "Skill not found" none) true
          "Traceback").Error).map ApiError.Code = some "E1001" ∧
      ((ApiResponseBase.from_exception
          (PyException.chatdollkit true "E1001" "Skill not found" none) true
          "Traceback").Error).map ApiError.Message = some "Skill not found" ∧
      ((ApiResponseBase.from_exception
          (PyException.chatdollkit true "E1001" "Skill not found" none) true
          "Traceback").Error).bind ApiError.Detail =
        some ("Skill not found" ++ "\n" ++ "Traceback") ∧
      ("Skill not found" ++ "\n" ++ "Traceback" : String) ≠ "" := by
  have h := from_exception_error_mapping
    (PyException.chatdollkit true "E1001" "Skill not found" none) true "Traceback"
  exact ⟨h.1, h.2.1, (h.2.2.2 rfl).1, (h.2.2.2 rfl).2⟩

/-! ## C9: the tokenizer adapter's ranked part-of-speech fields -/

/-- C9: the ranked-field guard is off by one. On a janome-style four-segment
part-of-speech tag `"noun,proper,person,firstname"` the code leaves
`PartDetail3` empty (its guard demands a fifth segment), while the
specification's positional-split rule fills it with the present, non-sentinel
fourth segment `"firstname"`; the other fields show the sentinel and verbatim
behaviour the claim describes. -/
theorem from_janome_drops_last_rank :
    WordNode.from_janome
        [{ surface := "x", part_of_speech := "noun,proper,person,firstname",
           infl_type := "*", infl_form := "*", base_form := "x",
           reading := "*", phonetic := "*" }] =
        [{ Word := "x", Part := "noun", PartDetail1 := "proper",
           PartDetail2 := "person", PartDetail3 := "", StemType := "",
           StemForm := "", OriginalForm := "x", Kana := "",
           Pronunciation := "" }] ∧
      (pySplitComma "noun,proper,person,firstname").getD 3 "" = "firstname" ∧
      WordNode.from_janome_specified
        [{ surface := "x", part_of_speech := "noun,proper,person,firstname",
           infl_type := "*", infl_form := "*", base_form := "x",
           reading := "*", phonetic := "*" }] =
        [{ Word := "x", Part := "noun", PartDetail1 := "proper",
           PartDetail2 := "person", PartDetail3 := "firstname", StemType := "",
           StemForm := "", OriginalForm := "x", Kana := "",
           Pronunciation := "" }] ∧
      WordNode.from_janome
          [{ surface := "x", part_of_speech := "noun,proper,person,firstname",
             infl_type := "*", infl_form := "*", base_form := "x",
             reading := "*", phonetic := "*" }] ≠
        WordNode.from_janome_specified
          [{ surface := "x", part_of_speech := "noun,proper,person,firstname",
             infl_type := "*", infl_form := "*", base_form := "x",
             reading := "*", phonetic := "*" }] := by
  refine ⟨by decide, by decide, by decide, by decide⟩

/-- C10: the default of `Response.CreatedAt` is the single instant captured
when the module was imported (`datetime.utcnow()` in the class body runs
once); two instances constructed without an explicit `CreatedAt`, at any two
construction instants, carry exactly equal `CreatedAt` values. -/
theorem response_createdAt_fixed_at_import (moduleLoadTime t₁ t₂ : Nat)
    (id₁ id₂ : String) :
    (Response.construct moduleLoadTime t₁ id₁).CreatedAt =
        (Response.construct moduleLoadTime t₂ id₂).CreatedAt ∧
      (Response.construct moduleLoadTime t₁ id₁).CreatedAt = moduleLoadTime :=
  ⟨rfl, rfl⟩

end Chatdollkit
